import Mathlib

/-!
Verification of the liqo Terraform provider's logic layer.

This development shallowly embeds the pure logic of the provider's Go source:
the peering status classification (`evaluatePeerStatus`), the status check
(`checkPeeringStatus`), the polling loop (`waitForPeeringCompletion`), the
CLI argument builder (`getRemoteClusterID`), the resource operations
(Create/Delete of the peer and offload resources) and the DefaultValue plan
modifiers.  External effects (process execution, YAML parsing, Kubernetes API
calls, the Terraform framework) are modelled as explicit inputs: each external
call's outcome is a field of an environment record, consumed at the point the
source performs the call.
-/

namespace Liqo

/-- A Terraform framework attribute value (`types.String`, `types.Bool`, ...):
either null, unknown, or a known value.  `valueString`/`valueBool` mirror the
framework's `ValueString()`/`ValueBool()`, which return the zero value for
null or unknown attributes. -/
inductive TFValue (α : Type) where
  | null
  | unknown
  | value (v : α)
deriving DecidableEq

/-- Mirrors `types.String.IsNull()`. -/
def TFValue.isNull : TFValue α → Bool
  | .null => true
  | _ => false

/-- Mirrors `types.String.IsUnknown()`. -/
def TFValue.isUnknown : TFValue α → Bool
  | .unknown => true
  | _ => false

/-- Mirrors `types.String.ValueString()`: the value, or `""` when null/unknown. -/
def TFValue.valueString : TFValue String → String
  | .value s => s
  | _ => ""

/-- Mirrors `types.Bool.ValueBool()`: the value, or `false` when null/unknown. -/
def TFValue.valueBool : TFValue Bool → Bool
  | .value b => b
  | _ => false

/-- `charsPrefixEq pat l` is true when `pat` is a prefix of `l`. -/
def charsPrefixEq : List Char → List Char → Bool
  | [], _ => true
  | _ :: _, [] => false
  | a :: as, b :: bs => a == b && charsPrefixEq as bs

/-- `charsContains l pat`: some suffix of `l` starts with `pat`. -/
def charsContains : List Char → List Char → Bool
  | [], pat => charsPrefixEq pat []
  | a :: rest, pat => charsPrefixEq pat (a :: rest) || charsContains rest pat

/-- Embedding of Go's `strings.Contains(s, pat)`. -/
def strContains (s pat : String) : Bool :=
  charsContains s.data pat.data

/-- Source constant `statusNoPeers = "no_peers"` (peer_resource.go). -/
def statusNoPeers : String := "no_peers"

/-- Modelled from the spec: the declarations of the constants `statusReady`,
`statusEstablishing` and `statusError` are in a file of this repository not
included here (only their uses are); the spec's state enum and the literal
strings matched by the polling loop's `switch` fix their values as
`"ready"`, `"establishing"` and `"error"`. -/
def statusReady : String := "ready"

/-- Modelled from the spec: see `statusReady`. -/
def statusEstablishing : String := "establishing"

/-- Modelled from the spec: see `statusReady`. -/
def statusError : String := "error"

/-- `PeerInfo` (peer_resource.go): one peer entry of `liqoctl info -o yaml`. -/
structure PeerInfo where
  authenticationStatus : String
  clusterID : String
  networkingStatus : String
  offloadingStatus : String
  role : String
deriving DecidableEq

/-- The `local` section of `LiqoctlInfoOutput`. -/
structure LocalInfo where
  apiServerAddr : String
  clusterID : String
  version : String
deriving DecidableEq

/-- `LiqoctlInfoOutput` (peer_resource.go): parsed `liqoctl info -o yaml`. -/
structure LiqoctlInfoOutput where
  healthy : Bool
  localInfo : LocalInfo
  peers : List PeerInfo
deriving DecidableEq

/-- The three counters threaded through `evaluatePeerStatus`. -/
structure StatusCounts where
  nHealthy : Nat
  nUnhealthy : Nat
  nDisabled : Nat
deriving DecidableEq

/-- The `countStatus` closure inside `evaluatePeerStatus` (peer_resource.go):
a Go `switch` whose cases are tried in order `Unhealthy`, `Disabled`,
`Healthy`, incrementing the first matching counter. -/
def countStatus (c : StatusCounts) (status : String) : StatusCounts :=
  if strContains status ("Unhealthy") then { c with nUnhealthy := c.nUnhealthy + 1 }
  else if strContains status ("Disabled") then { c with nDisabled := c.nDisabled + 1 }
  else if strContains status ("Healthy") then { c with nHealthy := c.nHealthy + 1 }
  else c

/-- `evaluatePeerStatus` (peer_resource.go): classify a peer's three status
fields into the state enum. -/
def evaluatePeerStatus (peer : PeerInfo) : String :=
  let c0 : StatusCounts := ⟨0, 0, 0⟩
  let c1 := countStatus c0 peer.authenticationStatus
  let c2 := countStatus c1 peer.networkingStatus
  let c3 := countStatus c2 peer.offloadingStatus
  if c3.nUnhealthy > 0 then statusEstablishing
  else if c3.nHealthy > 0 then statusReady
  else statusEstablishing

/-- The amended classification, stated directly: `establishing` if some field
holds `Unhealthy`; otherwise `ready` if some field holds `Healthy` without
holding `Disabled`; otherwise `establishing`.  (A field holding `Disabled` is
counted as disabled even if it also holds `Healthy`.) -/
def evaluatePeerStatusSpec (peer : PeerInfo) : String :=
  let fields := [peer.authenticationStatus, peer.networkingStatus, peer.offloadingStatus]
  if fields.any (fun s => strContains s ("Unhealthy")) then statusEstablishing
  else if fields.any (fun s => strContains s ("Healthy") && !strContains s ("Disabled")) then statusReady
  else statusEstablishing

/-- Outcome of one external `liqoctl info` invocation followed by YAML
parsing, as observed by `getRemoteClusterID`/`checkPeeringStatus`:
the process fails (its error text and combined output), the YAML fails to
parse (the parse error text), or a parsed `LiqoctlInfoOutput` is obtained. -/
inductive ExecOutcome where
  | execFail (errMsg output : String)
  | parseFail (errMsg : String)
  | ok (info : LiqoctlInfoOutput)
deriving DecidableEq

/-- The argument list built by `getRemoteClusterID` (peer_resource.go):
`info`, then `--kubeconfig <path>` when the remote kubeconfig path is
non-empty, then `--namespace <ns>` when the remote Liqo namespace attribute
is non-null and non-empty, then `-o yaml`. -/
def getRemoteClusterIDArgs (remoteKubeconfig : String) (remoteLiqoNamespace : TFValue String) : List String :=
  let args := ["info"]
  let args := if remoteKubeconfig ≠ "" then args ++ ["--kubeconfig", remoteKubeconfig] else args
  let args :=
    if remoteLiqoNamespace.isNull = false ∧ remoteLiqoNamespace.valueString ≠ "" then
      args ++ ["--namespace", remoteLiqoNamespace.valueString]
    else args
  args ++ ["-o", "yaml"]

/-- `args` holds `flag` immediately followed by `val` somewhere. -/
def containsPair (args : List String) (flag val : String) : Prop :=
  ∃ pre post, args = pre ++ flag :: val :: post

/-- The result of `getRemoteClusterID` (peer_resource.go) as a function of
the external invocation's outcome: the remote cluster ID on success, or the
wrapped error message. -/
def getRemoteClusterID (outcome : ExecOutcome) : Except String String :=
  match outcome with
  | .execFail e out =>
      .error (("liqoctl info command failed on remote cluster: " ++ e) ++ ("\nOutput: " ++ out))
  | .parseFail e => .error ("failed to parse remote cluster info YAML: " ++ e)
  | .ok info => .ok info.localInfo.clusterID

/-- `checkPeeringStatus` (peer_resource.go) as a function of the outcomes of
its two external invocations (remote `liqoctl info` via
`getRemoteClusterID`, then local `liqoctl info`).  Returns the status string
and the error (`none` for a nil Go error). -/
def checkPeeringStatus (remoteOutcome localOutcome : ExecOutcome) : String × Option String :=
  match getRemoteClusterID remoteOutcome with
  | .error e => (statusError, some ("failed to get remote cluster ID: " ++ e))
  | .ok remoteClusterID =>
    if remoteClusterID = "" then (statusError, some ("remote cluster ID is empty"))
    else
      match localOutcome with
      | .execFail e out =>
          (statusError, some (("liqoctl info command failed on local cluster: " ++ e) ++ ("\nOutput: " ++ out)))
      | .parseFail e => (statusError, some ("failed to parse local cluster info YAML: " ++ e))
      | .ok localInfo =>
        match localInfo.peers.find? (fun peer => peer.clusterID == remoteClusterID) with
        | none =>
            (statusNoPeers,
             some (("remote cluster " ++ remoteClusterID) ++ " not found in local cluster\x27s peer list"))
        | some targetPeer => (evaluatePeerStatus targetPeer, none)

/-- One iteration of the ticker branch of `waitForPeeringCompletion`
(peer_resource.go), applied to a status-check result: `some r` means the
loop returns `r`; `none` means it continues polling.  A non-nil check error
aborts exactly when its message holds `"failed"` or `"error"`; a nil-error
check returns on status `"ready"` or `"error"` and continues on
`"establishing"`, `"no_peers"` and any other status. -/
def loopStep (c : String × Option String) : Option (String × Option String) :=
  match c.2 with
  | some e =>
      if strContains e ("failed") || strContains e ("error") then some (statusError, some e)
      else none
  | none =>
      if c.1 = "ready" then some (c.1, none)
      else if c.1 = "error" then some (c.1, some ("peering failed"))
      else none

/-- The timeout error message of `waitForPeeringCompletion`; the Go
`%v`-rendering of the `time.Duration` is abstracted to a decimal count of
seconds. -/
def timeoutMessage (timeoutSeconds : Nat) : String :=
  "timeout waiting for peering completion after " ++ toString timeoutSeconds

/-- The `for`/`select` loop of `waitForPeeringCompletion`: `tickEnvs` lists
the outcomes of the external invocations performed at the ticker firings
that occur before the overall deadline; the deadline fires after they are
exhausted. -/
def pollTicks (timeoutSeconds : Nat) : List (ExecOutcome × ExecOutcome) → String × Option String
  | [] => ("timeout", some (timeoutMessage timeoutSeconds))
  | env :: rest =>
    match loopStep (checkPeeringStatus env.1 env.2) with
    | some r => r
    | none => pollTicks timeoutSeconds rest

/-- `waitForPeeringCompletion` (peer_resource.go): an initial status check
(returning its result directly on any non-nil error, or immediately on
status `ready`), then the ticker loop bounded by the deadline. -/
def waitForPeeringCompletion (timeoutSeconds : Nat) (initialEnv : ExecOutcome × ExecOutcome)
    (tickEnvs : List (ExecOutcome × ExecOutcome)) : String × Option String :=
  let check := checkPeeringStatus initialEnv.1 initialEnv.2
  match check.2 with
  | some e => (check.1, some e)
  | none =>
    if check.1 = statusReady then (check.1, none)
    else pollTicks timeoutSeconds tickEnvs

/-- The ticker interval of `waitForPeeringCompletion`:
`time.NewTicker(10 * time.Second)`. -/
def tickerIntervalSeconds : Nat := 10

/-- External enum `discoveryv1alpha1.PeeringType`; the Go zero value is
`PeeringTypeUnknown`. -/
inductive PeeringType where
  | unknown
  | outOfBand
  | inBand
deriving DecidableEq

/-- Rendering of `PeeringType` used by `fmt.Errorf`'s `%s` verb (external
library constants). -/
def PeeringType.render : PeeringType → String
  | .unknown => "Unknown"
  | .outOfBand => "OutOfBand"
  | .inBand => "InBand"

/-- External enum `discoveryv1alpha1.PeeringEnabledType`; the Go zero value
is the empty string. -/
inductive PeeringEnabled where
  | empty
  | yes
  | no
  | auto
deriving DecidableEq

/-- The fields of `discoveryv1alpha1.ForeignClusterSpec` touched by the
provider. -/
structure ForeignClusterSpec where
  peeringType : PeeringType
  clusterID : String
  clusterName : String
  foreignAuthURL : String
  foreignProxyURL : String
  outgoingPeeringEnabled : PeeringEnabled
  incomingPeeringEnabled : PeeringEnabled
  insecureSkipTLSVerify : Option Bool
deriving DecidableEq

/-- A `discoveryv1alpha1.ForeignCluster`: object metadata (name, labels) plus
the spec fields the provider touches. -/
structure ForeignCluster where
  name : String
  labels : List (String × String)
  spec : ForeignClusterSpec
deriving DecidableEq

/-- External constant `discovery.ClusterIDLabel`. -/
def clusterIDLabel : String := "discovery.liqo.io/cluster-id"

/-- The zero-valued `ForeignClusterSpec` of a freshly constructed
`ForeignCluster` literal. -/
def emptyFCSpec : ForeignClusterSpec :=
  ⟨.unknown, "", "", "", "", .empty, .empty, none⟩

/-- The cluster identity returned by
`utils.GetClusterIdentityWithControllerClient`. -/
structure ClusterIdentity where
  clusterID : String
  clusterName : String
deriving DecidableEq

/-- `peerResourceModel` (peer_resource.go). -/
structure PeerPlan where
  clusterID : TFValue String
  clusterName : TFValue String
  clusterAuthURL : TFValue String
  clusterToken : TFValue String
  liqoNamespace : TFValue String
deriving DecidableEq

/-- The mutation closure passed to `controllerutil.CreateOrUpdate` by peer
`Create` (peer_resource.go): reject a conflicting peering type, otherwise
set the out-of-band peering fields, preserving an existing cluster name,
incoming-peering setting and TLS-verification setting. -/
def peerMutateFC (plan : PeerPlan) (fc : ForeignCluster) : Except String ForeignCluster :=
  if fc.spec.peeringType ≠ PeeringType.unknown ∧ fc.spec.peeringType ≠ PeeringType.outOfBand then
    .error ((("a peering of type " ++ fc.spec.peeringType.render)
      ++ (" already exists towards remote cluster \"" ++ plan.clusterName.valueString))
      ++ ("\", cannot be changed to " ++ PeeringType.outOfBand.render))
  else
    .ok { fc with spec :=
      { fc.spec with
          peeringType := PeeringType.outOfBand
          clusterID := plan.clusterID.valueString
          clusterName :=
            if fc.spec.clusterName = "" then plan.clusterName.valueString else fc.spec.clusterName
          foreignAuthURL := plan.clusterAuthURL.valueString
          foreignProxyURL := ""
          outgoingPeeringEnabled := PeeringEnabled.yes
          incomingPeeringEnabled :=
            if fc.spec.incomingPeeringEnabled = PeeringEnabled.empty then PeeringEnabled.auto
            else fc.spec.incomingPeeringEnabled
          insecureSkipTLSVerify :=
            if fc.spec.insecureSkipTLSVerify = none then some true
            else fc.spec.insecureSkipTLSVerify } }

/-- A user-facing diagnostic (`resp.Diagnostics.AddError(summary, detail)`). -/
structure Diagnostic where
  summary : String
  detail : String
deriving DecidableEq

/-- The `metav1.LabelSelectorRequirement` built by offload `Create`. -/
structure LabelSelectorRequirement where
  key : String
  operator : String
  values : List String
deriving DecidableEq

/-- A `corev1.NodeSelectorTerm` (its `MatchExpressions`, each a
`corev1.NodeSelectorRequirement` sharing the key/operator/values shape). -/
structure NodeSelectorTerm where
  matchExpressions : List LabelSelectorRequirement
deriving DecidableEq

/-- The `offloadingv1alpha1.NamespaceOffloadingSpec` fields set by offload
`Create`. -/
structure NamespaceOffloadingSpec where
  podOffloadingStrategy : String
  namespaceMappingStrategy : String
  clusterSelector : List NodeSelectorTerm
deriving DecidableEq

/-- The external state-changing calls a resource operation can perform, in
the order attempted. -/
inductive ApiAction where
  | storeInSecret (clusterID token ns : String)
  | createOrUpdateForeignCluster (fc : ForeignCluster)
  | updateForeignCluster (fc : ForeignCluster)
  | createOrUpdateNamespaceOffloading (ns : String) (spec : NamespaceOffloadingSpec)
  | deleteNamespaceOffloading (ns : String)
  | setState
deriving DecidableEq

/-- Result of `foreigncluster.GetForeignClusterByID`: a not-found error
(handled via `kerrors.IsNotFound`), another error, or the cluster. -/
inductive GetFCResult where
  | notFound
  | err (msg : String)
  | found (fc : ForeignCluster)
deriving DecidableEq

/-- Outcomes of the external calls made by peer `Create`, in source order. -/
structure PeerCreateEnv where
  checkParameters : Except String Unit
  newClients : Except String Unit
  getClusterIdentity : Except String ClusterIdentity
  storeInSecret : Except String Unit
  getForeignClusterByID : GetFCResult
  createOrUpdateApply : Except String Unit

/-- `peerResource.Create` (peer_resource.go), after the plan is read:
returns the emitted diagnostics and the external state-changing calls
attempted (with `setState` recording `resp.State.Set`). -/
def peerCreate (env : PeerCreateEnv) (plan : PeerPlan) : List Diagnostic × List ApiAction :=
  match env.checkParameters with
  | .error e => ([⟨"Unable to Create Resource", e⟩], [])
  | .ok _ =>
  match env.newClients with
  | .error e => ([⟨"Unable to Create Resource", e⟩], [])
  | .ok _ =>
  match env.getClusterIdentity with
  | .error e => ([⟨"Unable to Create Resource", e⟩], [])
  | .ok clusterIdentity =>
  if clusterIdentity.clusterID = plan.clusterID.valueString then
    ([⟨"Unable to Create Resource",
       "The Cluster ID of the remote cluster is the same of that of the local cluster"⟩], [])
  else
  let store := ApiAction.storeInSecret plan.clusterID.valueString plan.clusterToken.valueString
      plan.liqoNamespace.valueString
  match env.storeInSecret with
  | .error e => ([⟨"Unable to Create Resource", e⟩], [store])
  | .ok _ =>
  match env.getForeignClusterByID with
  | .err e => ([⟨"Unable to Create Resource", e⟩], [store])
  | fcResult =>
  let fc :=
    match fcResult with
    | .found fc => fc
    | _ => { name := plan.clusterName.valueString
             labels := [(clusterIDLabel, plan.clusterID.valueString)]
             spec := emptyFCSpec }
  match peerMutateFC plan fc with
  | .error e => ([⟨"Unable to Create Resource", e⟩], [store])
  | .ok fc1 =>
  match env.createOrUpdateApply with
  | .error e => ([⟨"Unable to Create Resource", e⟩], [store, .createOrUpdateForeignCluster fc1])
  | .ok _ => ([], [store, .createOrUpdateForeignCluster fc1, .setState])

/-- Outcomes of the external calls made by peer `Delete`, in source order. -/
structure PeerDeleteEnv where
  checkParameters : Except String Unit
  newClients : Except String Unit
  getForeignCluster : Except String ForeignCluster
  update : Except String Unit

/-- `peerResource.Delete` (peer_resource.go): a failing `CRClient.Get` of the
foreign cluster returns silently (no diagnostic), as does a peering type
other than out-of-band; otherwise outgoing peering is disabled via
`CRClient.Update`. -/
def peerDelete (env : PeerDeleteEnv) (_data : PeerPlan) : List Diagnostic × List ApiAction :=
  match env.checkParameters with
  | .error e => ([⟨"Unable to Delete Resource", e⟩], [])
  | .ok _ =>
  match env.newClients with
  | .error e => ([⟨"Unable to Delete Resource", e⟩], [])
  | .ok _ =>
  match env.getForeignCluster with
  | .error _ => ([], [])
  | .ok fc =>
  if fc.spec.peeringType ≠ PeeringType.outOfBand then ([], [])
  else
    let fc1 := { fc with spec := { fc.spec with outgoingPeeringEnabled := PeeringEnabled.no } }
    match env.update with
    | .error e => ([⟨"Unable to Delete Resource", e⟩], [.updateForeignCluster fc1])
    | .ok _ => ([], [.updateForeignCluster fc1])

/-- `matchExpression` (offload_resource.go): one configured match
expression. -/
structure MatchExpressionPlan where
  key : TFValue String
  operator : TFValue String
  values : List (TFValue String)
deriving DecidableEq

/-- `matchExpressions` (offload_resource.go): one cluster-selector term of
the plan. -/
structure MatchExpressionsPlan where
  matchExpressions : List MatchExpressionPlan
deriving DecidableEq

/-- `offloadResourceModel` (offload_resource.go); `nspace` is the source's
`Namespace` attribute. -/
structure OffloadPlan where
  nspace : TFValue String
  podOffloadingStrategy : TFValue String
  namespaceMappingStrategy : TFValue String
  clusterSelectorTerms : List MatchExpressionsPlan
deriving DecidableEq

/-- The first loop of offload `Create` (offload_resource.go): build the
`[][]metav1.LabelSelectorRequirement` from the plan's cluster-selector
terms. -/
def buildClusterSelector (terms : List MatchExpressionsPlan) : List (List LabelSelectorRequirement) :=
  terms.map (fun selector =>
    selector.matchExpressions.map (fun me =>
      { key := me.key.valueString
        operator := me.operator.valueString
        values := me.values.map TFValue.valueString }))

/-- The second loop of offload `Create`: translate each requirement list
into a `corev1.NodeSelectorTerm` of `corev1.NodeSelectorRequirement`s. -/
def buildTerms (clusterSelector : List (List LabelSelectorRequirement)) : List NodeSelectorTerm :=
  clusterSelector.map (fun selector =>
    { matchExpressions :=
        selector.map (fun r => { key := r.key, operator := r.operator, values := r.values }) })

/-- The `NamespaceOffloading` spec written by offload `Create`'s mutation
closure. -/
def offloadSpecOf (plan : OffloadPlan) : NamespaceOffloadingSpec :=
  { podOffloadingStrategy := plan.podOffloadingStrategy.valueString
    namespaceMappingStrategy := plan.namespaceMappingStrategy.valueString
    clusterSelector := buildTerms (buildClusterSelector plan.clusterSelectorTerms) }

/-- The spec's one-to-one description of the cluster-selector translation:
each term's match expressions become node-selector requirements element-wise
and order-preserving, with key, operator and values copied unchanged. -/
def clusterSelectorSpec (terms : List MatchExpressionsPlan) : List NodeSelectorTerm :=
  terms.map (fun t =>
    { matchExpressions :=
        t.matchExpressions.map (fun me =>
          { key := me.key.valueString
            operator := me.operator.valueString
            values := me.values.map TFValue.valueString }) })

/-- Outcomes of the external calls made by offload `Create`. -/
structure OffloadCreateEnv where
  checkParameters : Except String Unit
  newClients : Except String Unit
  createOrUpdateApply : Except String Unit

/-- `offloadResource.Create` (offload_resource.go), after the plan is read. -/
def offloadCreate (env : OffloadCreateEnv) (plan : OffloadPlan) : List Diagnostic × List ApiAction :=
  match env.checkParameters with
  | .error e => ([⟨"Unable to Create Resource", e⟩], [])
  | .ok _ =>
  match env.newClients with
  | .error e => ([⟨"Unable to Create Resource", e⟩], [])
  | .ok _ =>
  let act := ApiAction.createOrUpdateNamespaceOffloading plan.nspace.valueString (offloadSpecOf plan)
  match env.createOrUpdateApply with
  | .error e => ([⟨"Unable to Create Resource", e⟩], [act])
  | .ok _ => ([], [act, .setState])

/-- Outcome of offload `Delete`'s `CRClient.Delete`: success, a not-found
error (discarded by `client.IgnoreNotFound`), or another error. -/
inductive DeleteOutcome where
  | ok
  | notFound
  | err (msg : String)
deriving DecidableEq

/-- Outcomes of the external calls made by offload `Delete`. -/
structure OffloadDeleteEnv where
  checkParameters : Except String Unit
  newClients : Except String Unit
  delete : DeleteOutcome

/-- `offloadResource.Delete` (offload_resource.go): a not-found error from
the delete call is ignored (`client.IgnoreNotFound`), any other error is
surfaced. -/
def offloadDelete (env : OffloadDeleteEnv) (data : OffloadPlan) : List Diagnostic × List ApiAction :=
  match env.checkParameters with
  | .error e => ([⟨"Unable to Delete Resource", e⟩], [])
  | .ok _ =>
  match env.newClients with
  | .error e => ([⟨"Unable to Delete Resource", e⟩], [])
  | .ok _ =>
  let act := ApiAction.deleteNamespaceOffloading data.nspace.valueString
  match env.delete with
  | .err e => ([⟨"Unable to Delete Resource", e⟩], [act])
  | _ => ([], [act])

/-- `stringDefaultValuePlanModifier.PlanModifyString`
(attribute_plan_modifier): the framework initialises the response plan value
to the request's plan value; the modifier overwrites it with the default
only when the config value is null and the plan value is null or unknown. -/
def planModifyString (defaultValue configValue planValue : TFValue String) : TFValue String :=
  if !configValue.isNull then planValue
  else if !planValue.isUnknown && !planValue.isNull then planValue
  else defaultValue

/-- `boolDefaultValuePlanModifier.PlanModifyBool` (attribute_plan_modifier). -/
def planModifyBool (defaultValue configValue planValue : TFValue Bool) : TFValue Bool :=
  if !configValue.isNull then planValue
  else if !planValue.isUnknown && !planValue.isNull then planValue
  else defaultValue

/-- `listDefaultValuePlanModifier.PlanModifyList` (attribute_plan_modifier);
a `types.List` value is modelled as a list of elements. -/
def planModifyList (defaultValue configValue planValue : TFValue (List α)) : TFValue (List α) :=
  if !configValue.isNull then planValue
  else if !planValue.isUnknown && !planValue.isNull then planValue
  else defaultValue

/-- `mapDefaultValuePlanModifier.PlanModifyMap` (attribute_plan_modifier);
a `types.Map` value is modelled as an association list. -/
def planModifyMap (defaultValue configValue planValue : TFValue (List (String × α))) :
    TFValue (List (String × α)) :=
  if !configValue.isNull then planValue
  else if !planValue.isUnknown && !planValue.isNull then planValue
  else defaultValue

/-- `defaultValueAttributePlanModifier.Modify` (attribute_plan_modifier):
the generic `attr.Value` variant. -/
def attributeModify (defaultValue configValue planValue : TFValue α) : TFValue α :=
  if !configValue.isNull then planValue
  else if !planValue.isUnknown && !planValue.isNull then planValue
  else defaultValue

/-- Sample remote-cluster outcome: a healthy remote cluster whose ID is
`cluster-b`. -/
def remoteOkB : ExecOutcome :=
  .ok ⟨true, ⟨"addr", "cluster-b", "v1"⟩, []⟩

/-- Sample remote-cluster outcome reporting an empty cluster ID. -/
def remoteOkEmpty : ExecOutcome :=
  .ok ⟨true, ⟨"addr", "", "v1"⟩, []⟩

/-- Sample local-cluster outcome with an empty peer list. -/
def localNoPeers : ExecOutcome :=
  .ok ⟨true, ⟨"addr", "cluster-a", "v1"⟩, []⟩

/-- Sample local-cluster outcome where peer `cluster-b` is still
establishing (all status fields empty). -/
def localEstB : ExecOutcome :=
  .ok ⟨true, ⟨"addr", "cluster-a", "v1"⟩, [⟨"", "cluster-b", "", "", ""⟩]⟩

/-- Sample local-cluster outcome where peer `cluster-b` is fully healthy. -/
def localReadyB : ExecOutcome :=
  .ok ⟨true, ⟨"addr", "cluster-a", "v1"⟩, [⟨"Healthy", "cluster-b", "Healthy", "Healthy", ""⟩]⟩

/-! Theorems. -/

set_option maxHeartbeats 2000000

/-- If `args` holds `flag` immediately followed by `val`, then `val ∈ args`. -/
theorem mem_of_containsPair {args : List String} {flag val : String}
    (h : containsPair args flag val) : val ∈ args := by
  obtain ⟨pre, post, rfl⟩ := h
  simp

/-- Normal form of the argument list built by `getRemoteClusterID`. -/
theorem getRemoteClusterIDArgs_eq (rk : String) (ns : TFValue String) :
    getRemoteClusterIDArgs rk ns =
      ["info"]
        ++ (if rk ≠ "" then ["--kubeconfig", rk] else [])
        ++ (if ns.isNull = false ∧ ns.valueString ≠ "" then ["--namespace", ns.valueString] else [])
        ++ ["-o", "yaml"] := by
  unfold getRemoteClusterIDArgs
  split_ifs <;> simp

/-- A null or unknown attribute has the empty `valueString`. -/
theorem valueString_eq_empty_of_not_cond (ns : TFValue String)
    (h : ¬(ns.isNull = false ∧ ns.valueString ≠ "")) : ns.valueString = "" := by
  cases ns with
  | null => rfl
  | unknown => rfl
  | value s =>
      by_contra hs
      exact h ⟨rfl, hs⟩

/-- C2 counterexample: the status field `"Healthy (Disabled)"` holds the
substring `"Healthy"` and not `"Unhealthy"`, so the claim requires `"ready"`,
but `evaluatePeerStatus` counts the field as disabled (the `Disabled` case
precedes the `Healthy` case) and returns `"establishing"`. -/
theorem evaluatePeerStatus_healthyDisabled_establishing :
    strContains ("Healthy (Disabled)") ("Unhealthy") = false ∧
    strContains ("Healthy (Disabled)") ("Healthy") = true ∧
    evaluatePeerStatus ⟨"Healthy (Disabled)", "c", "", "", ""⟩ = statusEstablishing ∧
    statusEstablishing ≠ statusReady := by
  decide

/-- C2 (amended): `evaluatePeerStatus` returns `"establishing"` if some field
holds `"Unhealthy"`; otherwise `"ready"` if some field holds `"Healthy"`
without holding `"Disabled"`; otherwise `"establishing"`. -/
theorem evaluatePeerStatus_eq_spec (p : PeerInfo) :
    evaluatePeerStatus p = evaluatePeerStatusSpec p := by
  unfold evaluatePeerStatus evaluatePeerStatusSpec countStatus
  cases hUa : strContains p.authenticationStatus ("Unhealthy") <;>
  cases hDa : strContains p.authenticationStatus ("Disabled") <;>
  cases hHa : strContains p.authenticationStatus ("Healthy") <;>
  cases hUn : strContains p.networkingStatus ("Unhealthy") <;>
  cases hDn : strContains p.networkingStatus ("Disabled") <;>
  cases hHn : strContains p.networkingStatus ("Healthy") <;>
  cases hUo : strContains p.offloadingStatus ("Unhealthy") <;>
  cases hDo : strContains p.offloadingStatus ("Disabled") <;>
  cases hHo : strContains p.offloadingStatus ("Healthy") <;>
  simp [hUa, hDa, hHa, hUn, hDn, hHn, hUo, hDo, hHo]

/-- C10: every DefaultValue plan modifier (string, bool, list, map and the
generic attribute variant) sets the plan value to the configured default
exactly when the config value is null and the plan value is null or unknown,
and leaves the plan value unchanged in every other case. -/
theorem defaultValue_modifiers_spec (α β : Type)
    (dS cS pS : TFValue String) (dB cB pB : TFValue Bool)
    (dL cL pL : TFValue (List α)) (dM cM pM : TFValue (List (String × α)))
    (dA cA pA : TFValue β) :
    planModifyString dS cS pS =
      (if cS.isNull && (pS.isNull || pS.isUnknown) then dS else pS) ∧
    planModifyBool dB cB pB =
      (if cB.isNull && (pB.isNull || pB.isUnknown) then dB else pB) ∧
    planModifyList dL cL pL =
      (if cL.isNull && (pL.isNull || pL.isUnknown) then dL else pL) ∧
    planModifyMap dM cM pM =
      (if cM.isNull && (pM.isNull || pM.isUnknown) then dM else pM) ∧
    attributeModify dA cA pA =
      (if cA.isNull && (pA.isNull || pA.isUnknown) then dA else pA) := by
  refine ⟨?_, ?_, ?_, ?_, ?_⟩ <;>
    first
      | (cases cS <;> cases pS <;> rfl)
      | (cases cB <;> cases pB <;> rfl)
      | (cases cL <;> cases pL <;> rfl)
      | (cases cM <;> cases pM <;> rfl)
      | (cases cA <;> cases pA <;> rfl)

/-- C6: the CLI argument list built by `getRemoteClusterID` begins with
`info` and ends with `-o yaml`; it holds `--kubeconfig` followed by the
remote kubeconfig path iff that path is non-empty; and it holds
`--namespace` followed by the remote Liqo namespace iff that attribute is
non-null and non-empty. -/
theorem getRemoteClusterIDArgs_spec (rk : String) (ns : TFValue String) :
    (getRemoteClusterIDArgs rk ns).head? = some ("info") ∧
    (∃ mid, getRemoteClusterIDArgs rk ns = "info" :: mid ++ ["-o", "yaml"]) ∧
    (containsPair (getRemoteClusterIDArgs rk ns) ("--kubeconfig") rk ↔ rk ≠ "") ∧
    (containsPair (getRemoteClusterIDArgs rk ns) ("--namespace") ns.valueString ↔
      ns.isNull = false ∧ ns.valueString ≠ "") := by
  rw [getRemoteClusterIDArgs_eq]
  by_cases hrk : rk = ""
  · subst hrk
    rw [if_neg (fun h => h rfl)]
    by_cases hns : ns.isNull = false ∧ ns.valueString ≠ ""
    · rw [if_pos hns]
      simp only [List.nil_append, List.cons_append, List.append_nil]
      have hne : ("" : String) ∉ ("info" :: "--namespace" :: ns.valueString :: "-o" :: "yaml" :: ([] : List String)) := by
        intro hm
        simp only [List.mem_cons, List.mem_singleton] at hm
        rcases hm with h | h | h | h | h | h
        · exact absurd h (by decide)
        · exact absurd h (by decide)
        · exact hns.2 h.symm
        · exact absurd h (by decide)
        · exact absurd h (by decide)
        · simp at h
      refine ⟨rfl, ⟨["--namespace", ns.valueString], by simp⟩, ?_, ?_⟩
      · constructor
        · intro h
          exact absurd (mem_of_containsPair h) hne
        · intro h
          exact absurd rfl h
      · constructor
        · intro _
          exact hns
        · intro _
          exact ⟨["info"], ["-o", "yaml"], by simp⟩
    · rw [if_neg hns]
      simp only [List.nil_append, List.cons_append, List.append_nil]
      have hv : ns.valueString = "" := valueString_eq_empty_of_not_cond ns hns
      have hne : ("" : String) ∉ ("info" :: "-o" :: "yaml" :: ([] : List String)) := by decide
      refine ⟨rfl, ⟨[], by simp⟩, ?_, ?_⟩
      · constructor
        · intro h
          exact absurd (mem_of_containsPair h) hne
        · intro h
          exact absurd rfl h
      · constructor
        · intro h
          rw [hv] at h
          exact absurd (mem_of_containsPair h) hne
        · intro h
          exact absurd h hns
  · rw [if_pos hrk]
    by_cases hns : ns.isNull = false ∧ ns.valueString ≠ ""
    · rw [if_pos hns]
      simp only [List.nil_append, List.cons_append, List.append_nil]
      refine ⟨rfl, ⟨["--kubeconfig", rk, "--namespace", ns.valueString], by simp⟩, ?_, ?_⟩
      · constructor
        · intro _
          exact hrk
        · intro _
          exact ⟨["info"], "--namespace" :: ns.valueString :: "-o" :: "yaml" :: [], by simp⟩
      · constructor
        · intro _
          exact hns
        · intro _
          exact ⟨["info", "--kubeconfig", rk], ["-o", "yaml"], by simp⟩
    · rw [if_neg hns]
      simp only [List.nil_append, List.cons_append, List.append_nil]
      have hv : ns.valueString = "" := valueString_eq_empty_of_not_cond ns hns
      have hne : ("" : String) ∉ ("info" :: "--kubeconfig" :: rk :: "-o" :: "yaml" :: ([] : List String)) := by
        intro hm
        simp only [List.mem_cons, List.mem_singleton] at hm
        rcases hm with h | h | h | h | h | h
        · exact absurd h (by decide)
        · exact absurd h (by decide)
        · exact hrk h.symm
        · exact absurd h (by decide)
        · exact absurd h (by decide)
        · simp at h
      refine ⟨rfl, ⟨["--kubeconfig", rk], by simp⟩, ?_, ?_⟩
      · constructor
        · intro _
          exact hrk
        · intro _
          exact ⟨["info"], ["-o", "yaml"], by simp⟩
      · constructor
        · intro h
          rw [hv] at h
          exact absurd (mem_of_containsPair h) hne
        · intro h
          exact absurd h hns

/-- C6 witness: at a non-empty kubeconfig path and a set namespace, the
argument list holds both flag/value pairs. -/
theorem getRemoteClusterIDArgs_spec_witness :
    containsPair (getRemoteClusterIDArgs ("kc") (TFValue.value ("liqo-ns"))) ("--kubeconfig") ("kc") ∧
    containsPair (getRemoteClusterIDArgs ("kc") (TFValue.value ("liqo-ns"))) ("--namespace") ("liqo-ns") := by
  refine ⟨?_, ?_⟩
  · exact (getRemoteClusterIDArgs_spec ("kc") (TFValue.value ("liqo-ns"))).2.2.1.mpr (by decide)
  · exact (getRemoteClusterIDArgs_spec ("kc") (TFValue.value ("liqo-ns"))).2.2.2.mpr (by decide)

/-- C7: offload `Create` maps the plan one-to-one onto the
`NamespaceOffloading` spec: the two strategies equal the plan strings, and
the cluster selector is the element-wise, order-preserving translation of
the plan's cluster-selector terms, with each match expression's key,
operator and values copied unchanged. -/
theorem offloadSpec_maps_plan (plan : OffloadPlan) :
    (offloadSpecOf plan).podOffloadingStrategy = plan.podOffloadingStrategy.valueString ∧
    (offloadSpecOf plan).namespaceMappingStrategy = plan.namespaceMappingStrategy.valueString ∧
    (offloadSpecOf plan).clusterSelector = clusterSelectorSpec plan.clusterSelectorTerms ∧
    (offloadSpecOf plan).clusterSelector.length = plan.clusterSelectorTerms.length ∧
    (∀ i : Nat, ((offloadSpecOf plan).clusterSelector)[i]? =
      (plan.clusterSelectorTerms[i]?).map (fun term =>
        { matchExpressions :=
            term.matchExpressions.map (fun me =>
              { key := me.key.valueString
                operator := me.operator.valueString
                values := me.values.map TFValue.valueString }) })) := by
  have h3 : (offloadSpecOf plan).clusterSelector = clusterSelectorSpec plan.clusterSelectorTerms := by
    show buildTerms (buildClusterSelector plan.clusterSelectorTerms)
        = clusterSelectorSpec plan.clusterSelectorTerms
    unfold buildTerms buildClusterSelector clusterSelectorSpec
    rw [List.map_map]
    congr 1
    funext term
    simp only [Function.comp]
    congr 1
    rw [List.map_map]
    congr 1
  refine ⟨rfl, rfl, h3, ?_, ?_⟩
  · rw [h3]
    unfold clusterSelectorSpec
    exact List.length_map _ _
  · intro i
    rw [h3]
    unfold clusterSelectorSpec
    exact List.getElem?_map _ _ _

/-- C9: when the local cluster identity's ID equals the planned cluster ID,
peer `Create` fails with the self-peering diagnostic before any mutation:
no secret is stored, no ForeignCluster is created or updated, and no state
is set. -/
theorem peerCreate_selfPeering_no_mutation (env : PeerCreateEnv) (plan : PeerPlan)
    (ci : ClusterIdentity)
    (h1 : env.checkParameters = Except.ok ())
    (h2 : env.newClients = Except.ok ())
    (h3 : env.getClusterIdentity = Except.ok ci)
    (h4 : ci.clusterID = plan.clusterID.valueString) :
    peerCreate env plan =
      ([⟨"Unable to Create Resource",
         "The Cluster ID of the remote cluster is the same of that of the local cluster"⟩], []) := by
  simp [peerCreate, h1, h2, h3, h4]

/-- C9 witness: a concrete self-peering plan is rejected with no action
performed. -/
theorem peerCreate_selfPeering_no_mutation_witness :
    peerCreate
        ⟨Except.ok (), Except.ok (), Except.ok ⟨"cid", "cn"⟩, Except.ok (),
         GetFCResult.notFound, Except.ok ()⟩
        ⟨TFValue.value ("cid"), TFValue.value ("remote"), TFValue.value ("url"),
         TFValue.value ("tok"), TFValue.value ("liqo")⟩ =
      ([⟨"Unable to Create Resource",
         "The Cluster ID of the remote cluster is the same of that of the local cluster"⟩], []) :=
  peerCreate_selfPeering_no_mutation _ _ ⟨"cid", "cn"⟩ rfl rfl rfl rfl

/-- When every ticker check continues, the loop runs the deadline down. -/
theorem pollTicks_all_continue (t : Nat) (ticks : List (ExecOutcome × ExecOutcome))
    (h : ∀ env ∈ ticks, loopStep (checkPeeringStatus env.1 env.2) = none) :
    pollTicks t ticks = ("timeout", some (timeoutMessage t)) := by
  induction ticks with
  | nil => rfl
  | cons env rest ih =>
      have h0 : loopStep (checkPeeringStatus env.1 env.2) = none := h env (by simp)
      simp only [pollTicks, h0]
      exact ih fun e he => h e (List.mem_cons_of_mem _ he)

/-- C4: `waitForPeeringCompletion` polls on a fixed 10-second ticker
interval, and in every execution in which the initial check neither errors
nor reports `ready` and every ticker check continues, the call terminates
when the deadline elapses, returning status `"timeout"` and an error
reporting the timeout duration. -/
theorem waitForPeeringCompletion_timeout (t : Nat) (e0 : ExecOutcome × ExecOutcome)
    (ticks : List (ExecOutcome × ExecOutcome))
    (h1 : (checkPeeringStatus e0.1 e0.2).2 = none)
    (h2 : (checkPeeringStatus e0.1 e0.2).1 ≠ statusReady)
    (h3 : ∀ env ∈ ticks, loopStep (checkPeeringStatus env.1 env.2) = none) :
    waitForPeeringCompletion t e0 ticks = ("timeout", some (timeoutMessage t)) ∧
    tickerIntervalSeconds = 10 := by
  refine ⟨?_, rfl⟩
  simp only [waitForPeeringCompletion, h1]
  rw [if_neg h2]
  exact pollTicks_all_continue t ticks h3

/-- C4 witness: with a peer that stays establishing, a concrete run times
out. -/
theorem waitForPeeringCompletion_timeout_witness :
    waitForPeeringCompletion 600 (remoteOkB, localEstB) [(remoteOkB, localEstB)] =
      ("timeout", some (timeoutMessage 600)) ∧
    tickerIntervalSeconds = 10 :=
  waitForPeeringCompletion_timeout 600 (remoteOkB, localEstB) [(remoteOkB, localEstB)]
    (by decide) (by decide) (by decide)

/-- A string starting with a prefix longer than 14 characters is not
`"peering failed"`. -/
theorem long_prefix_ne_peering_failed (a x : String) (ha : 14 < a.length) :
    a ++ x ≠ "peering failed" := by
  intro he
  have hlen := congrArg String.length he
  rw [String.length_append] at hlen
  have h14 : ("peering failed" : String).length = 14 := by decide
  rw [h14] at hlen
  omega

/-- `evaluatePeerStatus` returns only `statusEstablishing` or
`statusReady`. -/
theorem evaluatePeerStatus_cases (p : PeerInfo) :
    evaluatePeerStatus p = statusEstablishing ∨ evaluatePeerStatus p = statusReady := by
  simp only [evaluatePeerStatus]
  split_ifs <;> simp

/-- A message starting with a literal prefix longer than 14 characters stays
longer than 14 characters. -/
theorem prefix_append_length_gt (lit x : String) (h : 14 < lit.length) :
    14 < (lit ++ x).length := by
  rw [String.length_append]
  omega

/-- Every error message produced by `checkPeeringStatus` differs from the
loop's `"peering failed"` message. -/
theorem checkPeeringStatus_err_ne_pf (r l : ExecOutcome) (s e : String)
    (h : checkPeeringStatus r l = (s, some e)) : e ≠ "peering failed" := by
  unfold checkPeeringStatus getRemoteClusterID at h
  cases r with
  | execFail em out =>
      simp only [Prod.mk.injEq, Option.some.injEq] at h
      rw [← h.2]
      exact long_prefix_ne_peering_failed _ _ (by decide)
  | parseFail em =>
      simp only [Prod.mk.injEq, Option.some.injEq] at h
      rw [← h.2]
      exact long_prefix_ne_peering_failed _ _ (by decide)
  | ok info =>
      simp only at h
      split at h
      · simp only [Prod.mk.injEq, Option.some.injEq] at h
        rw [← h.2]
        decide
      · cases l with
        | execFail em out =>
            simp only [Prod.mk.injEq, Option.some.injEq] at h
            rw [← h.2]
            exact long_prefix_ne_peering_failed _ _ (prefix_append_length_gt _ _ (by decide))
        | parseFail em =>
            simp only [Prod.mk.injEq, Option.some.injEq] at h
            rw [← h.2]
            exact long_prefix_ne_peering_failed _ _ (by decide)
        | ok localInfo =>
            dsimp only at h
            cases hf : localInfo.peers.find? (fun peer => peer.clusterID == info.localInfo.clusterID) with
            | none =>
                rw [hf] at h
                simp only [Prod.mk.injEq, Option.some.injEq] at h
                rw [← h.2]
                exact long_prefix_ne_peering_failed _ _ (prefix_append_length_gt _ _ (by decide))
            | some targetPeer =>
                rw [hf] at h
                simp at h

/-- A successful status check reports only `statusEstablishing` or
`statusReady`. -/
theorem checkPeeringStatus_none_cases (r l : ExecOutcome) (s : String)
    (h : checkPeeringStatus r l = (s, none)) :
    s = statusEstablishing ∨ s = statusReady := by
  unfold checkPeeringStatus getRemoteClusterID at h
  cases r with
  | execFail em out => simp at h
  | parseFail em => simp at h
  | ok info =>
      simp only at h
      split at h
      · simp at h
      · cases l with
        | execFail em out => simp at h
        | parseFail em => simp at h
        | ok localInfo =>
            dsimp only at h
            cases hf : localInfo.peers.find? (fun peer => peer.clusterID == info.localInfo.clusterID) with
            | none =>
                rw [hf] at h
                simp at h
            | some targetPeer =>
                rw [hf] at h
                simp only [Prod.mk.injEq] at h
                rw [← h.1]
                exact evaluatePeerStatus_cases targetPeer

/-- A returning loop iteration on a status-check result never yields the
`("error", "peering failed")` pair. -/
theorem loopStep_check_ne_pf (a b : ExecOutcome) (r : String × Option String)
    (h : loopStep (checkPeeringStatus a b) = some r) :
    r ≠ ("error", some ("peering failed")) := by
  cases hc : checkPeeringStatus a b with
  | mk cs ce =>
      rw [hc] at h
      cases ce with
      | some e =>
          simp only [loopStep] at h
          split at h
          · simp only [Option.some.injEq] at h
            subst h
            intro heq
            simp only [Prod.mk.injEq, Option.some.injEq] at heq
            exact checkPeeringStatus_err_ne_pf a b cs e hc heq.2
          · simp at h
      | none =>
          simp only [loopStep] at h
          rcases checkPeeringStatus_none_cases a b cs hc with h1 | h1 <;> subst h1
          · rw [if_neg (by decide), if_neg (by decide)] at h
            simp at h
          · rw [if_pos (show statusReady = "ready" from rfl)] at h
            simp only [Option.some.injEq] at h
            subst h
            decide

/-- The ticker loop never returns `("error", "peering failed")`. -/
theorem pollTicks_ne_pf (t : Nat) (ticks : List (ExecOutcome × ExecOutcome)) :
    pollTicks t ticks ≠ ("error", some ("peering failed")) := by
  induction ticks with
  | nil =>
      intro h
      simp only [pollTicks, Prod.mk.injEq] at h
      exact absurd h.1 (by decide)
  | cons env rest ih =>
      cases hl : loopStep (checkPeeringStatus env.1 env.2) with
      | none => simpa only [pollTicks, hl] using ih
      | some r =>
          simp only [pollTicks, hl]
          exact loopStep_check_ne_pf env.1 env.2 r hl

/-- C8: `evaluatePeerStatus` only ever returns `"establishing"` or
`"ready"`; hence a status check with a nil error never reports the status
`"error"`, and `waitForPeeringCompletion` can never return the loop branch's
`("error", "peering failed")` result. -/
theorem peering_error_branch_unreachable :
    (∀ p : PeerInfo,
      evaluatePeerStatus p = statusEstablishing ∨ evaluatePeerStatus p = statusReady) ∧
    (∀ r l s, checkPeeringStatus r l = (s, none) →
      s = statusEstablishing ∨ s = statusReady) ∧
    (∀ t e0 ticks, waitForPeeringCompletion t e0 ticks ≠ ("error", some ("peering failed"))) := by
  refine ⟨fun p => evaluatePeerStatus_cases p,
    fun r l s h => checkPeeringStatus_none_cases r l s h, ?_⟩
  intro t e0 ticks
  cases hc : checkPeeringStatus e0.1 e0.2 with
  | mk cs ce =>
      cases ce with
      | some e =>
          simp only [waitForPeeringCompletion, hc]
          intro heq
          simp only [Prod.mk.injEq, Option.some.injEq] at heq
          exact checkPeeringStatus_err_ne_pf e0.1 e0.2 cs e hc heq.2
      | none =>
          simp only [waitForPeeringCompletion, hc]
          split
          · intro heq
            simp only [Prod.mk.injEq] at heq
            exact absurd heq.2 (by decide)
          · exact pollTicks_ne_pf t ticks

/-- C8 witness: a concrete successful check reports one of the two
non-error statuses. -/
theorem peering_error_branch_unreachable_witness :
    statusEstablishing = statusEstablishing ∨ statusEstablishing = statusReady :=
  (peering_error_branch_unreachable).2.1 remoteOkB localEstB statusEstablishing (by decide)

/-- C1 counterexample: when the initial status check reports the retryable
status `no_peers`, `waitForPeeringCompletion` returns immediately with that
status and its error instead of continuing to poll, even though the next
ticker check would have reported `ready`. -/
theorem waitForPeeringCompletion_initial_noPeers_aborts :
    checkPeeringStatus remoteOkB localNoPeers =
      (statusNoPeers, some ("remote cluster cluster-b not found in local cluster\x27s peer list")) ∧
    waitForPeeringCompletion 600 (remoteOkB, localNoPeers) [(remoteOkB, localReadyB)] =
      (statusNoPeers, some ("remote cluster cluster-b not found in local cluster\x27s peer list")) ∧
    pollTicks 600 [(remoteOkB, localReadyB)] = (statusReady, none) := by
  decide

/-- Every returning loop iteration yields a ready, error or fatal-error
result. -/
theorem loopStep_some_cases (c r : String × Option String) (h : loopStep c = some r) :
    r = (statusReady, none) ∨ r = ("error", some ("peering failed")) ∨
    ∃ e, (strContains e ("failed") || strContains e ("error")) = true ∧
      r = (statusError, some e) := by
  cases c with
  | mk cs ce =>
      cases ce with
      | some e =>
          simp only [loopStep] at h
          split at h
          · simp only [Option.some.injEq] at h
            subst h
            right; right
            exact ⟨e, by assumption, rfl⟩
          · simp at h
      | none =>
          simp only [loopStep] at h
          split at h
          · simp only [Option.some.injEq] at h
            subst h
            left
            simp_all [statusReady]
          · split at h
            · simp only [Option.some.injEq] at h
              subst h
              right; left
              simp_all
            · simp at h

/-- Every run of the ticker loop ends in a timeout, a ready result, the
error-status result, or a fatal check error. -/
theorem pollTicks_cases (t : Nat) (ticks : List (ExecOutcome × ExecOutcome)) :
    pollTicks t ticks = ("timeout", some (timeoutMessage t)) ∨
    pollTicks t ticks = (statusReady, none) ∨
    pollTicks t ticks = ("error", some ("peering failed")) ∨
    ∃ e, (strContains e ("failed") || strContains e ("error")) = true ∧
      pollTicks t ticks = (statusError, some e) := by
  induction ticks with
  | nil => left; rfl
  | cons env rest ih =>
      cases hl : loopStep (checkPeeringStatus env.1 env.2) with
      | none =>
          have hstep : pollTicks t (env :: rest) = pollTicks t rest := by
            simp only [pollTicks, hl]
          rw [hstep]
          exact ih
      | some r =>
          have hstep : pollTicks t (env :: rest) = r := by
            simp only [pollTicks, hl]
          rw [hstep]
          rcases loopStep_some_cases _ r hl with h1 | h1 | h1
          · right; left; exact h1
          · right; right; left; exact h1
          · right; right; right; exact h1

/-- C1 (amended): every result of `waitForPeeringCompletion` is the ready
result, the timeout result, the initial check's status/error pair returned
immediately on any initial check error (including the retryable `no_peers`
status), a fatal loop result `(statusError, e)` whose check error message
holds `"failed"` or `"error"`, or the loop's `("error", "peering failed")`
result; retryable statuses continue polling only within the ticker loop,
where a nil-error status other than `ready`/`error` always continues. -/
theorem waitForPeeringCompletion_classification (t : Nat)
    (e0 : ExecOutcome × ExecOutcome) (ticks : List (ExecOutcome × ExecOutcome)) :
    (waitForPeeringCompletion t e0 ticks = (statusReady, none) ∨
     waitForPeeringCompletion t e0 ticks = ("timeout", some (timeoutMessage t)) ∨
     (∃ e, (checkPeeringStatus e0.1 e0.2).2 = some e ∧
       waitForPeeringCompletion t e0 ticks = ((checkPeeringStatus e0.1 e0.2).1, some e)) ∨
     (∃ e, (strContains e ("failed") || strContains e ("error")) = true ∧
       waitForPeeringCompletion t e0 ticks = (statusError, some e)) ∨
     waitForPeeringCompletion t e0 ticks = ("error", some ("peering failed"))) ∧
    (∀ s, s ≠ "ready" → s ≠ "error" → loopStep (s, none) = none) ∧
    (∀ env rest, loopStep (checkPeeringStatus env.1 env.2) = none →
      pollTicks t (env :: rest) = pollTicks t rest) := by
  refine ⟨?_, ?_, ?_⟩
  · cases hce : (checkPeeringStatus e0.1 e0.2).2 with
    | some e =>
        right; right; left
        exact ⟨e, rfl, by simp only [waitForPeeringCompletion, hce]⟩
    | none =>
        by_cases hr : (checkPeeringStatus e0.1 e0.2).1 = statusReady
        · left
          simp only [waitForPeeringCompletion, hce, hr, if_pos]
        · have hres : waitForPeeringCompletion t e0 ticks = pollTicks t ticks := by
            simp only [waitForPeeringCompletion, hce]
            rw [if_neg hr]
          rw [hres]
          rcases pollTicks_cases t ticks with h1 | h1 | h1 | h1
          · right; left; exact h1
          · left; exact h1
          · right; right; right; right; exact h1
          · right; right; right; left; exact h1
  · intro s hs1 hs2
    simp only [loopStep]
    rw [if_neg hs1, if_neg hs2]
  · intro env rest h
    simp only [pollTicks, h]

/-- C1 (amended) witness: a concrete continuing tick is skipped by the
loop. -/
theorem waitForPeeringCompletion_classification_witness :
    pollTicks 600 [(remoteOkB, localEstB)] = pollTicks 600 [] :=
  (waitForPeeringCompletion_classification 600 (remoteOkB, localEstB) []).2.2
    (remoteOkB, localEstB) [] (by decide)

/-- C3 counterexample: a status check can fail with the explicit error state
`(statusError, "remote cluster ID is empty")`, produced when the remote info
reports an empty cluster ID, yet the ticker loop retries it (its message
holds neither `"failed"` nor `"error"`), running on to the deadline: an
explicit error state does not abort the loop. -/
theorem errorStatus_emptyID_is_retried :
    checkPeeringStatus remoteOkEmpty localNoPeers =
      (statusError, some ("remote cluster ID is empty")) ∧
    loopStep (statusError, some ("remote cluster ID is empty")) = none ∧
    pollTicks 600 [(remoteOkEmpty, localNoPeers)] = ("timeout", some (timeoutMessage 600)) := by
  decide

/-- C3 (amended): inside the ticker loop the fatal-versus-retryable decision
keys on the error message, not on status values: a failing check aborts
exactly when its message holds `"failed"` or `"error"`.  In particular the
`no_peers` report for remote cluster `cluster-b` is retried, the
`statusError` report `"remote cluster ID is empty"` is also retried, and a
local command failure (whose wrapped message holds `"failed"`) aborts. -/
theorem loop_failure_classification :
    (∀ s e, loopStep (s, some e) =
      if strContains e ("failed") || strContains e ("error") then some (statusError, some e)
      else none) ∧
    loopStep (checkPeeringStatus remoteOkB localNoPeers) = none ∧
    loopStep (checkPeeringStatus remoteOkEmpty localNoPeers) = none ∧
    loopStep (checkPeeringStatus remoteOkB (ExecOutcome.execFail ("exit 1") ("out"))) =
      some (statusError,
        some (("liqoctl info command failed on local cluster: " ++ "exit 1") ++ ("\nOutput: " ++ "out"))) := by
  exact ⟨fun s e => rfl, by decide, by decide, by decide⟩

/-- C5 counterexample: in peer `Delete` a failing foreign-cluster `Get` is
swallowed: with the error `"boom"` from the Get call the operation returns
without emitting any diagnostic, so that error is not surfaced at all. -/
theorem peerDelete_get_error_swallowed :
    peerDelete
        ⟨Except.ok (), Except.ok (), Except.error ("boom"), Except.ok ()⟩
        ⟨TFValue.value ("c"), TFValue.value ("n"), TFValue.value ("u"),
         TFValue.value ("t"), TFValue.value ("liqo")⟩ = ([], []) := by
  rfl

/-- C5 (amended): every diagnostic emitted by the peer/offload Create and
Delete operations carries the failing call's error message verbatim as its
detail, each failure aborts the operation at that point with no retry —
except that peer `Delete` silently swallows a failing foreign-cluster `Get`
(no diagnostic), and offload `Delete` discards a not-found error from its
delete call by design. -/
theorem operation_errors_surfaced_verbatim :
    (∀ env plan e, env.checkParameters = Except.error e →
      peerCreate env plan = ([⟨"Unable to Create Resource", e⟩], [])) ∧
    (∀ env plan e, env.checkParameters = Except.ok () → env.newClients = Except.error e →
      peerCreate env plan = ([⟨"Unable to Create Resource", e⟩], [])) ∧
    (∀ env plan e, env.checkParameters = Except.ok () → env.newClients = Except.ok () →
      env.getClusterIdentity = Except.error e →
      peerCreate env plan = ([⟨"Unable to Create Resource", e⟩], [])) ∧
    (∀ env plan ci e, env.checkParameters = Except.ok () → env.newClients = Except.ok () →
      env.getClusterIdentity = Except.ok ci →
      ci.clusterID ≠ plan.clusterID.valueString →
      env.storeInSecret = Except.error e →
      (peerCreate env plan).1 = [⟨"Unable to Create Resource", e⟩]) ∧
    (∀ env plan ci e, env.checkParameters = Except.ok () → env.newClients = Except.ok () →
      env.getClusterIdentity = Except.ok ci →
      ci.clusterID ≠ plan.clusterID.valueString →
      env.storeInSecret = Except.ok () →
      env.getForeignClusterByID = GetFCResult.err e →
      (peerCreate env plan).1 = [⟨"Unable to Create Resource", e⟩]) ∧
    (∀ env plan ci e, env.checkParameters = Except.ok () → env.newClients = Except.ok () →
      env.getClusterIdentity = Except.ok ci →
      ci.clusterID ≠ plan.clusterID.valueString →
      env.storeInSecret = Except.ok () →
      env.getForeignClusterByID = GetFCResult.notFound →
      env.createOrUpdateApply = Except.error e →
      (peerCreate env plan).1 = [⟨"Unable to Create Resource", e⟩]) ∧
    (∀ env data e, env.checkParameters = Except.error e →
      peerDelete env data = ([⟨"Unable to Delete Resource", e⟩], [])) ∧
    (∀ env data e, env.checkParameters = Except.ok () → env.newClients = Except.error e →
      peerDelete env data = ([⟨"Unable to Delete Resource", e⟩], [])) ∧
    (∀ env data e, env.checkParameters = Except.ok () → env.newClients = Except.ok () →
      env.getForeignCluster = Except.error e →
      peerDelete env data = ([], [])) ∧
    (∀ env data fc e, env.checkParameters = Except.ok () → env.newClients = Except.ok () →
      env.getForeignCluster = Except.ok fc →
      fc.spec.peeringType = PeeringType.outOfBand →
      env.update = Except.error e →
      (peerDelete env data).1 = [⟨"Unable to Delete Resource", e⟩]) ∧
    (∀ env plan e, env.checkParameters = Except.error e →
      offloadCreate env plan = ([⟨"Unable to Create Resource", e⟩], [])) ∧
    (∀ env plan e, env.checkParameters = Except.ok () → env.newClients = Except.error e →
      offloadCreate env plan = ([⟨"Unable to Create Resource", e⟩], [])) ∧
    (∀ env plan e, env.checkParameters = Except.ok () → env.newClients = Except.ok () →
      env.createOrUpdateApply = Except.error e →
      (offloadCreate env plan).1 = [⟨"Unable to Create Resource", e⟩]) ∧
    (∀ env data e, env.checkParameters = Except.error e →
      offloadDelete env data = ([⟨"Unable to Delete Resource", e⟩], [])) ∧
    (∀ env data e, env.checkParameters = Except.ok () → env.newClients = Except.error e →
      offloadDelete env data = ([⟨"Unable to Delete Resource", e⟩], [])) ∧
    (∀ env data e, env.checkParameters = Except.ok () → env.newClients = Except.ok () →
      env.delete = DeleteOutcome.err e →
      (offloadDelete env data).1 = [⟨"Unable to Delete Resource", e⟩]) ∧
    (∀ env data, env.checkParameters = Except.ok () → env.newClients = Except.ok () →
      env.delete = DeleteOutcome.notFound →
      offloadDelete env data =
        ([], [ApiAction.deleteNamespaceOffloading data.nspace.valueString])) := by
  refine ⟨?_, ?_, ?_, ?_, ?_, ?_, ?_, ?_, ?_, ?_, ?_, ?_, ?_, ?_, ?_, ?_, ?_⟩
  · intro env plan e h1
    simp [peerCreate, h1]
  · intro env plan e h1 h2
    simp [peerCreate, h1, h2]
  · intro env plan e h1 h2 h3
    simp [peerCreate, h1, h2, h3]
  · intro env plan ci e h1 h2 h3 h4 h5
    simp [peerCreate, h1, h2, h3, h4, h5]
  · intro env plan ci e h1 h2 h3 h4 h5 h6
    simp [peerCreate, h1, h2, h3, h4, h5, h6]
  · intro env plan ci e h1 h2 h3 h4 h5 h6 h7
    simp [peerCreate, h1, h2, h3, h4, h5, h6, h7, peerMutateFC, emptyFCSpec]
  · intro env data e h1
    simp [peerDelete, h1]
  · intro env data e h1 h2
    simp [peerDelete, h1, h2]
  · intro env data e h1 h2 h3
    simp [peerDelete, h1, h2, h3]
  · intro env data fc e h1 h2 h3 h4 h5
    simp [peerDelete, h1, h2, h3, h4, h5]
  · intro env plan e h1
    simp [offloadCreate, h1]
  · intro env plan e h1 h2
    simp [offloadCreate, h1, h2]
  · intro env plan e h1 h2 h3
    simp [offloadCreate, h1, h2, h3]
  · intro env data e h1
    simp [offloadDelete, h1]
  · intro env data e h1 h2
    simp [offloadDelete, h1, h2]
  · intro env data e h1 h2 h3
    simp [offloadDelete, h1, h2, h3]
  · intro env data h1 h2 h3
    simp [offloadDelete, h1, h2, h3]

/-- C5 (amended) witness: a concrete failing parameter check surfaces its
message verbatim. -/
theorem operation_errors_surfaced_verbatim_witness :
    peerCreate
        ⟨Except.error ("no kubeconfig"), Except.ok (), Except.error ("x"), Except.ok (),
         GetFCResult.notFound, Except.ok ()⟩
        ⟨TFValue.value ("c"), TFValue.value ("n"), TFValue.value ("u"),
         TFValue.value ("t"), TFValue.value ("liqo")⟩ =
      ([⟨"Unable to Create Resource", "no kubeconfig"⟩], []) :=
  (operation_errors_surfaced_verbatim).1 _ _ ("no kubeconfig") rfl

end Liqo
